import Mathlib

/-!
Verification of the streaming aggregation-and-alerting pipeline of
`entregable2_nuria.py` against its design document.

Modelling conventions:
* A Python reading tuple `(timestamp, temp, lon, lat, humedad)` becomes the
  `Reading` structure, with the fields in tuple order (`d[0]` = `timestamp`,
  `d[1]` = `temperatura`, `d[4]` = `humedad`).
* Timestamps and measurements are rationals; `datetime.timedelta(seconds=s)`
  is the rational `s` and `now - delta` is rational subtraction.
* Python `statistics.stdev` is the square root of the unbiased sample
  variance.  The square root of a rational is not rational-computable, and
  squaring is injective on the non-negative reals, so every standard
  deviation is represented throughout by its square (`desv_temp_sq` is the
  square of the Python `desv_temp`).  The special-cased values `0` are fixed
  points of this representation.
* Fallible Python code is embedded in `Except`: `Except.error ()` marks a
  raised exception (`TypeError` from subscripting `None`, `ValueError` from
  `list.remove`, a conversion error from the coordinate collaborator).
* Effects on the event bus are reified: `notificar` returns the list of
  (listener, notification) deliveries it performs, in delivery order.
-/

/-- One sensor reading, the tuple `(timestamp, temp, lon, lat, humedad)`
built at lines 241-242 of the source. -/
structure Reading where
  timestamp : ℚ
  temperatura : ℚ
  longitud : ℚ
  latitud : ℚ
  humedad : ℚ
deriving DecidableEq

/-- `Notificacion` (lines 10-14): title, category, priority. -/
structure Notificacion where
  titulo : String
  categoria : String
  prioridad : ℕ
deriving DecidableEq

namespace Publicador

variable {α : Type}

/-- `Publicador.suscribir` (lines 20-21): `self.suscriptores.append(observer)`. -/
def suscribir (subs : List α) (o : α) : List α :=
  subs ++ [o]

/-- `Publicador.desuscribir` (lines 23-24): `self.suscriptores.remove(observer)`.
Python `list.remove` scans left to right, removes the first element equal to
the argument, and raises `ValueError` (modelled as `Except.error ()`) when no
element matches; a raised call produces no new list, so the caller's
subscriber list is unchanged. -/
def desuscribir [DecidableEq α] : List α → α → Except Unit (List α)
  | [], _ => Except.error ()
  | x :: xs, o =>
    if x = o then Except.ok xs
    else Except.map (fun ys => x :: ys) (desuscribir xs o)

/-- `Publicador.notificar` (lines 26-28): calls `sub.actualizar(notificacion)`
for each subscriber in list order; the result is the list of deliveries
performed, in order. -/
def notificar (subs : List α) (n : Notificacion) : List (α × Notificacion) :=
  subs.map (fun s => (s, n))

end Publicador

/-- The trailing-window selection realized by the timestamp filters of
`EstadisticasHandler.manejar` (lines 65-67, `d=60`) and
`VariacionHandler.manejar` (lines 117-119, `d=30`):
`list(filter(lambda d: d[0] >= now - delta, datos))`. -/
def snapshot_since (datos : List Reading) (now d : ℚ) : List Reading :=
  datos.filter (fun r => now - d ≤ r.timestamp)

/-- `temps = list(map(lambda d: d[1], recientes))` for the 60-second window
(line 68). -/
def tempsWindow (datos : List Reading) (now : ℚ) : List ℚ :=
  (snapshot_since datos now 60).map (fun r => r.temperatura)

/-- `hums = list(map(lambda d: d[4], recientes))` for the 60-second window
(line 69). -/
def humsWindow (datos : List Reading) (now : ℚ) : List ℚ :=
  (snapshot_since datos now 60).map (fun r => r.humedad)

/-- Python `statistics.mean`: the arithmetic mean of the list. -/
def mean (xs : List ℚ) : ℚ :=
  xs.sum / (xs.length : ℚ)

/-- The square of Python `statistics.stdev xs` for `xs.length ≥ 2`: the
unbiased sample variance, `Σ (x - mean)² / (n - 1)`. -/
def stdevSq (xs : List ℚ) : ℚ :=
  (xs.map (fun x => (x - mean xs) ^ 2)).sum / ((xs.length : ℚ) - 1)

/-- The spec's "unbiased sample standard deviation (divide by n−1)", squared:
inlined mean `Σx/n`, squared deviations summed, divided by `n − 1`. -/
def unbiasedSampleVarSq (xs : List ℚ) : ℚ :=
  (xs.map (fun x => (x - xs.sum / (xs.length : ℚ)) ^ 2)).sum / ((xs.length : ℚ) - 1)

/-- The four statistics stored into `datos.estadisticas` (lines 90-95); the
two standard deviations are represented by their squares. -/
structure Estadisticas where
  media_temp : Option ℚ
  desv_temp_sq : ℚ
  media_hum : Option ℚ
  desv_hum_sq : ℚ
deriving DecidableEq

/-- `EstadisticasHandler.manejar` (lines 63-95), the computation of the four
statistics: on each projection, when more than one element is present the
mean and (squared) sample standard deviation are taken; otherwise the mean
is `temps[0] if temps else None` (the head when non-empty, absent when
empty) and the deviation is `0`. -/
def estadisticasManejar (datos : List Reading) (now : ℚ) : Estadisticas :=
  let temps := tempsWindow datos now
  let hums := humsWindow datos now
  { media_temp := if 1 < temps.length then some (mean temps) else temps.head?
    desv_temp_sq := if 1 < temps.length then stdevSq temps else 0
    media_hum := if 1 < hums.length then some (mean hums) else hums.head?
    desv_hum_sq := if 1 < hums.length then stdevSq hums else 0 }

/-- `UmbralTemperaturaHandler.UMBRAL_TEMP` (line 99). -/
def UMBRAL_TEMP : ℚ := 25

/-- `UmbralTemperaturaHandler.manejar` (lines 101-113), its own emissions.
Line 103 reads `datos.ultimo_dato[1]`: when `ultimo_dato` is `None`,
subscripting raises `TypeError`, modelled as `Except.error ()`.  Otherwise
the handler publishes one `Notificacion` with category `"Temperatura"` and
priority `9` exactly when the latest temperature strictly exceeds the
threshold.  (The numeric interpolation in the title string is abstracted;
Python float formatting is outside the embedding.) -/
def umbralManejar (ultimo_dato : Option Reading) : Except Unit (List Notificacion) :=
  match ultimo_dato with
  | none => Except.error ()
  | some d =>
    Except.ok
      (if UMBRAL_TEMP < d.temperatura then
        [{ titulo := "Temperatura alta", categoria := "Temperatura", prioridad := 9 }]
      else [])

/-- `temps = list(map(lambda d: d[1], recientes_30s))` (line 120). -/
def temps30 (datos : List Reading) (now : ℚ) : List ℚ :=
  (snapshot_since datos now 30).map (fun r => r.temperatura)

/-- `hums = list(map(lambda d: d[4], recientes_30s))` (line 121). -/
def hums30 (datos : List Reading) (now : ℚ) : List ℚ :=
  (snapshot_since datos now 30).map (fun r => r.humedad)

/-- Python `max` of a non-empty list (total here, with an unused default for
the empty list, which the guarded call sites never pass). -/
def pymax (xs : List ℚ) : ℚ :=
  xs.foldl max (xs.headD 0)

/-- Python `min` of a non-empty list. -/
def pymin (xs : List ℚ) : ℚ :=
  xs.foldl min (xs.headD 0)

/-- The notification published at lines 126-132. -/
def varNotif : Notificacion :=
  { titulo := "Variación brusca en temperatura o humedad"
    categoria := "Variación"
    prioridad := 8 }

/-- `VariacionHandler.manejar` (lines 115-133), its own emissions:
`if temps and hums:` (both projections non-empty) and then
`if (max(temps) - min(temps)) > 2 or (max(hums) - min(hums)) > 2:` publishes
exactly one `Notificacion` with category `"Variación"` and priority `8`. -/
def variacionManejar (datos : List Reading) (now : ℚ) : List Notificacion :=
  if temps30 datos now ≠ [] ∧ hums30 datos now ≠ [] then
    if 2 < pymax (temps30 datos now) - pymin (temps30 datos now)
        ∨ 2 < pymax (hums30 datos now) - pymin (hums30 datos now) then
      [varNotif]
    else []
  else []

/-- `DatosCamion` (lines 220-225): the appended readings, the statistics
snapshot (empty dict initially, modelled as `none`) and `ultimo_dato`
(initially `None`). -/
structure DatosCamion where
  datos : List Reading
  estadisticas : Option Estadisticas
  ultimo_dato : Option Reading
deriving DecidableEq

/-- `DatosCamion.__init__`: empty sequence, empty statistics, no latest. -/
def DatosCamion.init : DatosCamion :=
  { datos := [], estadisticas := none, ultimo_dato := none }

/-- Lines 241-242 of `simular_recepcion_datos`: `datos_camion.append(tuple)`
followed by `datos_camion.ultimo_dato = tuple`, for the same tuple. -/
def DatosCamion.appendReading (s : DatosCamion) (r : Reading) : DatosCamion :=
  { s with datos := s.datos ++ [r], ultimo_dato := some r }

/-- Line 90: `datos.estadisticas = {...}` written by `EstadisticasHandler`. -/
def DatosCamion.setEstadisticas (s : DatosCamion) (e : Estadisticas) : DatosCamion :=
  { s with estadisticas := some e }

/-- The Windowed Store invariant: `ultimo_dato` is absent exactly before the
first append and otherwise equals the last appended reading, i.e. it always
equals `datos.getLast?`. -/
def DatosCamion.inv (s : DatosCamion) : Prop :=
  s.ultimo_dato = s.datos.getLast?

/-- The ingestion loop of `simular_recepcion_datos` (lines 229-246), one
list entry per iteration.  Each entry is the outcome of that iteration's
coordinate conversion (line 235, `adaptador_coord.convertir_a_olc`): `ok r`
when the conversion succeeds and reading `r` is then stored, `error ()` when
the collaborator raises.  The body has no `try/except`, so a raised
conversion propagates out of the `while` loop: the task dies (flag `true`),
the store keeps only the readings ingested so far, and the remaining
iterations never run. -/
def simularRecepcion : List (Except Unit Reading) → DatosCamion → DatosCamion × Bool
  | [], s => (s, false)
  | Except.error _ :: _, s => (s, true)
  | Except.ok r :: rest, s => simularRecepcion rest (s.appendReading r)

/-- One tick of `procesar_datos` (lines 248-252): run the chain once when
`len(datos_camion) > 0`, else do nothing; the result is the number of chain
passes performed by that tick. -/
def procesarTick (storeLen : ℕ) : ℕ :=
  if 0 < storeLen then 1 else 0

/-- `procesar_datos` observed over finitely many ticks of its `while True`
loop, one list entry per tick holding the store length seen at that tick;
the result is the number of chain passes performed.  The loop body contains
no exit condition, so no prefix of the run terminates the loop. -/
def procesarRun : List ℕ → ℕ
  | [] => 0
  | l :: rest => procesarTick l + procesarRun rest

/-! ## Theorems -/

/-- Claim C4: for every sequence of readings and every duration `d`, the
trailing-window selection returns exactly the readings with
`timestamp ≥ now − d` (same membership and same multiplicities), preserves
arrival order (the result is a sublist of the input), and is idempotent. -/
theorem snapshot_since_spec (datos : List Reading) (now d : ℚ) :
    (∀ r : Reading, r ∈ snapshot_since datos now d ↔ r ∈ datos ∧ now - d ≤ r.timestamp)
    ∧ (∀ r : Reading, (snapshot_since datos now d).count r
        = if now - d ≤ r.timestamp then datos.count r else 0)
    ∧ List.Sublist (snapshot_since datos now d) datos
    ∧ snapshot_since (snapshot_since datos now d) now d = snapshot_since datos now d := by
  refine ⟨?_, ?_, ?_, ?_⟩
  · intro r
    simp [snapshot_since, List.mem_filter]
  · intro r
    by_cases h : now - d ≤ r.timestamp
    · simp only [h, if_true, snapshot_since]
      exact List.count_filter (by simpa using h)
    · rw [if_neg h, List.count_eq_zero]
      intro hmem
      simp only [snapshot_since, List.mem_filter, decide_eq_true_eq] at hmem
      exact h hmem.2
  · exact List.filter_sublist datos
  · simp [snapshot_since, List.filter_filter]

/-- Claim C7: when the latest reading is absent, `UmbralTemperaturaHandler`
does not no-op: line 103 subscripts `None` and raises `TypeError`, so the
step fails instead of passing control to the next step. -/
theorem umbral_absent_error : umbralManejar none = Except.error () := rfl

/-- Claim C8: a failed coordinate conversion is not skipped: with the
converter raising on the first iteration and a well-formed reading pending
on the second, the ingestion loop dies immediately (`true`), stores
nothing, and never produces the subsequent reading. -/
theorem simular_conversion_crash :
    simularRecepcion [Except.error (), Except.ok (Reading.mk 1 20 3 4 50)] DatosCamion.init
      = (DatosCamion.init, true) := rfl

/-- Claim C9: the Windowed Store invariant — `ultimo_dato` is absent or
equals the last appended reading — holds initially and is preserved by both
mutating operations: the producer's append (lines 241-242) and the
statistics write (line 90). -/
theorem datos_camion_latest_inv (s : DatosCamion) (r : Reading) (e : Estadisticas) :
    DatosCamion.init.inv
    ∧ (s.inv → (s.appendReading r).inv)
    ∧ (s.inv → (s.setEstadisticas e).inv) := by
  refine ⟨rfl, ?_, ?_⟩
  · intro _
    simp [DatosCamion.inv, DatosCamion.appendReading]
  · intro h
    simpa [DatosCamion.inv, DatosCamion.setEstadisticas] using h

/-- The invariant-preservation theorem applied at a concrete store: the
initial store satisfies the invariant, and it still holds after appending a
concrete reading and after writing a statistics snapshot. -/
theorem datos_camion_latest_inv_witness :
    (DatosCamion.init.appendReading (Reading.mk 0 20 1 2 40)).inv
    ∧ ((DatosCamion.init.appendReading (Reading.mk 0 20 1 2 40)).setEstadisticas
        (Estadisticas.mk none 0 none 0)).inv := by
  have h1 := (datos_camion_latest_inv DatosCamion.init (Reading.mk 0 20 1 2 40)
    (Estadisticas.mk none 0 none 0)).2.1
    (datos_camion_latest_inv DatosCamion.init (Reading.mk 0 20 1 2 40)
      (Estadisticas.mk none 0 none 0)).1
  have h2 := (datos_camion_latest_inv
    (DatosCamion.init.appendReading (Reading.mk 0 20 1 2 40)) (Reading.mk 0 20 1 2 40)
    (Estadisticas.mk none 0 none 0)).2.2 h1
  exact ⟨h1, h2⟩

/-- Claim C1: per-projection behaviour of the Statistics Step.  An empty
projection yields an absent mean and a zero (squared) deviation; a singleton
projection yields that element as the mean and a zero deviation; a
projection of two or more elements yields the arithmetic mean and the
unbiased sample variance (divide by `n − 1`), matching the spec formula. -/
theorem estadisticas_cases (datos : List Reading) (now : ℚ) :
    (tempsWindow datos now = [] →
      (estadisticasManejar datos now).media_temp = none
      ∧ (estadisticasManejar datos now).desv_temp_sq = 0)
    ∧ (∀ a : ℚ, tempsWindow datos now = [a] →
      (estadisticasManejar datos now).media_temp = some a
      ∧ (estadisticasManejar datos now).desv_temp_sq = 0)
    ∧ (2 ≤ (tempsWindow datos now).length →
      (estadisticasManejar datos now).media_temp = some (mean (tempsWindow datos now))
      ∧ (estadisticasManejar datos now).desv_temp_sq
          = unbiasedSampleVarSq (tempsWindow datos now))
    ∧ (humsWindow datos now = [] →
      (estadisticasManejar datos now).media_hum = none
      ∧ (estadisticasManejar datos now).desv_hum_sq = 0)
    ∧ (∀ a : ℚ, humsWindow datos now = [a] →
      (estadisticasManejar datos now).media_hum = some a
      ∧ (estadisticasManejar datos now).desv_hum_sq = 0)
    ∧ (2 ≤ (humsWindow datos now).length →
      (estadisticasManejar datos now).media_hum = some (mean (humsWindow datos now))
      ∧ (estadisticasManejar datos now).desv_hum_sq
          = unbiasedSampleVarSq (humsWindow datos now)) := by
  refine ⟨?_, ?_, ?_, ?_, ?_, ?_⟩
  · intro h
    simp [estadisticasManejar, h]
  · intro a h
    simp [estadisticasManejar, h]
  · intro h
    have h1 : 1 < (tempsWindow datos now).length := h
    constructor
    · simp [estadisticasManejar, h1]
    · simp only [estadisticasManejar, h1, if_true]
      rfl
  · intro h
    simp [estadisticasManejar, h]
  · intro a h
    simp [estadisticasManejar, h]
  · intro h
    have h1 : 1 < (humsWindow datos now).length := h
    constructor
    · simp [estadisticasManejar, h1]
    · simp only [estadisticasManejar, h1, if_true]
      rfl

/-- The statistics-cases theorem applied at concrete inputs: an empty store
(empty projection), a one-reading store in the window, and a two-reading
store whose (squared) deviation equals the spec's sample-variance formula. -/
theorem estadisticas_cases_witness :
    (estadisticasManejar [] 0).media_temp = none
    ∧ (estadisticasManejar [Reading.mk 0 10 1 2 40] 0).media_temp = some 10
    ∧ (estadisticasManejar [Reading.mk 0 10 1 2 40, Reading.mk 0 12 1 2 50] 0).desv_temp_sq
        = unbiasedSampleVarSq (tempsWindow [Reading.mk 0 10 1 2 40, Reading.mk 0 12 1 2 50] 0) := by
  refine ⟨?_, ?_, ?_⟩
  · exact ((estadisticas_cases [] 0).1 rfl).1
  · exact ((estadisticas_cases [Reading.mk 0 10 1 2 40] 0).2.1 10
      (by norm_num [tempsWindow, snapshot_since])).1
  · exact ((estadisticas_cases [Reading.mk 0 10 1 2 40, Reading.mk 0 12 1 2 50] 0).2.2.1
      (by norm_num [tempsWindow, snapshot_since])).2

/-- Claim C2: with the latest reading present, the Threshold Step does not
fail and emits exactly one notification with category `"Temperatura"`
(the spec's Temperature) and priority `9` when the latest temperature
strictly exceeds the fixed threshold `25.0`, and emits nothing otherwise. -/
theorem umbral_latest_present (r : Reading) :
    (25 < r.temperatura →
      ∃ n : Notificacion, umbralManejar (some r) = Except.ok [n]
        ∧ n.categoria = "Temperatura" ∧ n.prioridad = 9)
    ∧ (r.temperatura ≤ 25 → umbralManejar (some r) = Except.ok []) := by
  constructor
  · intro h
    refine ⟨Notificacion.mk "Temperatura alta" "Temperatura" 9, ?_, rfl, rfl⟩
    simp [umbralManejar, UMBRAL_TEMP, h]
  · intro h
    simp [umbralManejar, UMBRAL_TEMP, not_lt.mpr h]

/-- The threshold theorem applied at two concrete latest readings: one at
30 °C (above the threshold, one Temperature/9 notification) and one at
20 °C (below, no notification). -/
theorem umbral_latest_present_witness :
    (∃ n : Notificacion, umbralManejar (some (Reading.mk 0 30 1 2 40)) = Except.ok [n]
      ∧ n.categoria = "Temperatura" ∧ n.prioridad = 9)
    ∧ umbralManejar (some (Reading.mk 0 20 1 2 40)) = Except.ok [] := by
  constructor
  · exact (umbral_latest_present (Reading.mk 0 30 1 2 40)).1 (by norm_num)
  · exact (umbral_latest_present (Reading.mk 0 20 1 2 40)).2 (by norm_num)

/-- The temperature projection of the 30-second window is empty exactly when
the window itself is. -/
theorem temps30_eq_nil_iff (datos : List Reading) (now : ℚ) :
    temps30 datos now = [] ↔ snapshot_since datos now 30 = [] := by
  simp [temps30]

/-- The humidity projection of the 30-second window is empty exactly when
the window itself is. -/
theorem hums30_eq_nil_iff (datos : List Reading) (now : ℚ) :
    hums30 datos now = [] ↔ snapshot_since datos now 30 = [] := by
  simp [hums30]

/-- Claim C3: one run of the Variation Step emits exactly one notification
with category `"Variación"` (the spec's Variation) and priority `8` exactly
when the 30-second window is non-empty and the max−min spread of its
temperatures or of its humidities exceeds `2`; it emits at most one
notification, and nothing for an empty window. -/
theorem variacion_spec (datos : List Reading) (now : ℚ) :
    (snapshot_since datos now 30 = [] → variacionManejar datos now = [])
    ∧ ((∃ n : Notificacion, variacionManejar datos now = [n]
          ∧ n.categoria = "Variación" ∧ n.prioridad = 8)
        ↔ (snapshot_since datos now 30 ≠ []
            ∧ (2 < pymax (temps30 datos now) - pymin (temps30 datos now)
                ∨ 2 < pymax (hums30 datos now) - pymin (hums30 datos now))))
    ∧ (variacionManejar datos now = []
        ∨ ∃ n : Notificacion, variacionManejar datos now = [n]
            ∧ n.categoria = "Variación" ∧ n.prioridad = 8) := by
  by_cases hw : snapshot_since datos now 30 = []
  · have ht : temps30 datos now = [] := (temps30_eq_nil_iff datos now).mpr hw
    refine ⟨fun _ => ?_, ?_, ?_⟩
    · simp [variacionManejar, ht]
    · simp [variacionManejar, ht, hw]
    · left
      simp [variacionManejar, ht]
  · have ht : temps30 datos now ≠ [] := fun h => hw ((temps30_eq_nil_iff datos now).mp h)
    have hh : hums30 datos now ≠ [] := fun h => hw ((hums30_eq_nil_iff datos now).mp h)
    by_cases hs : 2 < pymax (temps30 datos now) - pymin (temps30 datos now)
        ∨ 2 < pymax (hums30 datos now) - pymin (hums30 datos now)
    · have hres : variacionManejar datos now = [varNotif] := by
        simp [variacionManejar, ht, hh, hs]
      refine ⟨fun h => absurd h hw, ?_, ?_⟩
      · constructor
        · intro _
          exact ⟨hw, hs⟩
        · intro _
          exact ⟨varNotif, hres, rfl, rfl⟩
      · right
        exact ⟨varNotif, hres, rfl, rfl⟩
    · have hres : variacionManejar datos now = [] := by
        simp only [variacionManejar, if_neg hs]
        simp [ht, hh]
      refine ⟨fun _ => hres, ?_, Or.inl hres⟩
      constructor
      · rintro ⟨n, hn, -, -⟩
        rw [hres] at hn
        exact absurd hn (by simp)
      · rintro ⟨-, hsp⟩
        exact absurd hsp hs

/-- The variation theorem applied at concrete stores: an empty store emits
nothing, and a store holding two in-window readings with temperature spread
3 emits the Variation/8 notification. -/
theorem variacion_spec_witness :
    variacionManejar [] 0 = []
    ∧ (∃ n : Notificacion,
        variacionManejar [Reading.mk 0 20 1 2 40, Reading.mk 0 23 1 2 40] 0 = [n]
          ∧ n.categoria = "Variación" ∧ n.prioridad = 8) := by
  constructor
  · exact (variacion_spec [] 0).1 rfl
  · refine (variacion_spec [Reading.mk 0 20 1 2 40, Reading.mk 0 23 1 2 40] 0).2.1.mpr ⟨?_, ?_⟩
    · norm_num [snapshot_since]
      simp
    · left
      norm_num [temps30, snapshot_since, pymax, pymin]

/-- A successful `desuscribir` removes exactly one occurrence of the removed
listener: the multiplicity drops by one. -/
theorem desuscribir_ok_count {α : Type} [DecidableEq α] (subs subs' : List α) (o : α)
    (h : Publicador.desuscribir subs o = Except.ok subs') :
    subs.count o = subs'.count o + 1 := by
  induction subs generalizing subs' with
  | nil => simp [Publicador.desuscribir] at h
  | cons x xs ih =>
    rw [Publicador.desuscribir] at h
    by_cases hx : x = o
    · rw [if_pos hx] at h
      cases h
      simp [hx, List.count_cons_self]
    · rw [if_neg hx] at h
      cases e : Publicador.desuscribir xs o with
      | error u => rw [e] at h; simp [Except.map] at h
      | ok ys =>
        rw [e] at h
        simp only [Except.map] at h
        cases h
        have hxo : o ≠ x := fun hc => hx hc.symm
        rw [List.count_cons_of_ne hxo, List.count_cons_of_ne hxo]
        exact ih ys e

/-- A listener absent from the subscriber list makes `desuscribir` raise. -/
theorem desuscribir_not_mem {α : Type} [DecidableEq α] (subs : List α) (o : α)
    (h : o ∉ subs) : Publicador.desuscribir subs o = Except.error () := by
  induction subs with
  | nil => rfl
  | cons x xs ih =>
    have hx : x ≠ o := fun hc => h (List.mem_cons.mpr (Or.inl hc.symm))
    rw [Publicador.desuscribir, if_neg hx, ih (fun hm => h (List.mem_cons_of_mem x hm))]
    rfl

/-- `desuscribir` removes the first occurrence: on `pre ++ o :: post` with
`o` not in `pre` it returns `pre ++ post`. -/
theorem desuscribir_first_occurrence {α : Type} [DecidableEq α]
    (pre post : List α) (o : α) (hpre : o ∉ pre) :
    Publicador.desuscribir (pre ++ o :: post) o = Except.ok (pre ++ post) := by
  induction pre with
  | nil => simp [Publicador.desuscribir]
  | cons x xs ih =>
    have hx : x ≠ o := fun hc => hpre (List.mem_cons.mpr (Or.inl hc.symm))
    rw [List.cons_append, Publicador.desuscribir, if_neg hx,
      ih (fun hm => hpre (List.mem_cons_of_mem x hm))]
    rfl

/-- Claim C5 (amended): `notificar` delivers the event to every currently
registered listener, in registration order (the delivery list is the
subscriber list paired with the event); and a listener registered at most
once that is then unregistered receives nothing.  (With duplicate
registrations `desuscribir` removes only the first occurrence, so the
original unconditional claim fails; see the duplicate counterexample.) -/
theorem notificar_delivery {α : Type} [DecidableEq α] (subs : List α) (n : Notificacion) :
    ((Publicador.notificar subs n).map Prod.fst = subs)
    ∧ (∀ l : α, (l, n) ∈ Publicador.notificar subs n ↔ l ∈ subs)
    ∧ (∀ (l : α) (subs' : List α), subs.count l ≤ 1 →
        Publicador.desuscribir subs l = Except.ok subs' →
        (l, n) ∉ Publicador.notificar subs' n) := by
  refine ⟨?_, ?_, ?_⟩
  · have hid : (Prod.fst ∘ fun s : α => (s, n)) = id := rfl
    rw [Publicador.notificar, List.map_map, hid, List.map_id]
  · intro l
    simp [Publicador.notificar, List.mem_map]
  · intro l subs' hc hok hmem
    have hcount := desuscribir_ok_count subs subs' l hok
    have hzero : subs'.count l = 0 := by omega
    have hnot : l ∉ subs' := List.count_eq_zero.mp hzero
    have hl : l ∈ subs' := by
      rcases List.mem_map.mp hmem with ⟨s, hs, hsn⟩
      cases hsn
      exact hs
    exact hnot hl

/-- The delivery theorem applied concretely: from subscribers `[1, 2]`,
unregistering listener `2` (registered once) leaves `[1]`, and the
unregistered listener receives nothing from a subsequent publish. -/
theorem notificar_delivery_witness :
    ((2 : ℕ), Notificacion.mk "aviso" "General" 1) ∉
      Publicador.notificar [1] (Notificacion.mk "aviso" "General" 1) := by
  exact (notificar_delivery [1, 2] (Notificacion.mk "aviso" "General" 1)).2.2 2 [1]
    (by simp) (by simp [Publicador.desuscribir, Except.map])

/-- Counterexample to claim C5 as stated: listener `7` is registered twice;
`desuscribir` (called before publish, and succeeding) removes only the
first occurrence, and the publish still delivers the event to `7`. -/
theorem desuscribir_duplicate_still_delivered :
    Publicador.desuscribir [7, 7] (7 : ℕ) = Except.ok [7]
    ∧ ((7 : ℕ), Notificacion.mk "aviso" "General" 1) ∈
        Publicador.notificar [7] (Notificacion.mk "aviso" "General" 1) := by
  constructor
  · simp [Publicador.desuscribir]
  · simp [Publicador.notificar]

/-- `procesarRun` is additive over concatenated tick histories. -/
theorem procesarRun_append (xs ys : List ℕ) :
    procesarRun (xs ++ ys) = procesarRun xs + procesarRun ys := by
  induction xs with
  | nil => simp [procesarRun]
  | cons a t ih =>
    show procesarTick a + procesarRun (t ++ ys) = procesarTick a + procesarRun t + procesarRun ys
    rw [ih]
    omega

/-- Claim C6 (amended): `procesar_datos` implements only the continuous
mode.  Over any tick history it performs one chain pass per tick whose
store is non-empty, and after any history a further tick with data performs
a further pass — the loop has no termination condition, so there is no
bounded mode and no "exactly one pass then stop". -/
theorem procesar_continuous (lens : List ℕ) :
    procesarRun lens = lens.countP (fun l => 0 < l)
    ∧ ∀ l : ℕ, 0 < l → procesarRun (lens ++ [l]) = procesarRun lens + 1 := by
  constructor
  · induction lens with
    | nil => rfl
    | cons a t ih =>
      simp only [procesarRun, procesarTick, List.countP_cons, ih]
      by_cases ha : 0 < a
      · simp [ha]
        omega
      · simp [ha, Nat.not_lt.mp ha]
  · intro l hl
    rw [procesarRun_append]
    simp [procesarRun, procesarTick, hl]

/-- The continuous-mode theorem applied concretely: with five readings in
the store, every further tick performs a further chain pass. -/
theorem procesar_continuous_witness :
    procesarRun ([5] ++ [5]) = procesarRun [5] + 1 :=
  (procesar_continuous [5]).2 5 (by norm_num)

/-- Counterexample to claim C6 as stated: with the store holding 5 readings
(the configured minimum), two ticks of the driver perform two chain passes,
not exactly one followed by termination. -/
theorem procesar_two_passes_after_min : procesarRun [5, 5] = 2 := rfl

/-- Claim C10: `desuscribir` on a listener that is not currently registered
raises (`ValueError`, modelled as `Except.error ()`) instead of no-oping —
and, having raised before any mutation, leaves the subscriber list
unchanged; on a registered listener it removes exactly the first
occurrence. -/
theorem desuscribir_spec {α : Type} [DecidableEq α] (subs : List α) (o : α) :
    (o ∉ subs → Publicador.desuscribir subs o = Except.error ())
    ∧ (∀ pre post : List α, o ∉ pre → subs = pre ++ o :: post →
        Publicador.desuscribir subs o = Except.ok (pre ++ post)) := by
  constructor
  · exact desuscribir_not_mem subs o
  · intro pre post hpre heq
    rw [heq]
    exact desuscribir_first_occurrence pre post o hpre

/-- The unregister theorem applied concretely: removing `3` from `[1, 2]`
raises, and removing `1` from `[1, 2, 1]` removes only the first
occurrence. -/
theorem desuscribir_spec_witness :
    Publicador.desuscribir [1, 2] (3 : ℕ) = Except.error ()
    ∧ Publicador.desuscribir [1, 2, 1] (1 : ℕ) = Except.ok [2, 1] := by
  constructor
  · exact (desuscribir_spec [1, 2] 3).1 (by simp)
  · exact (desuscribir_spec [1, 2, 1] 1).2 [] [2, 1] (by simp) rfl
